import Mathlib

/-
Verification of the PBF (position-based fluids) solver core of this
repository against its specification.

The repository ships two headers, include/jet/pbf_solver2.h and
include/jet/collider3.h. The headers carry the authoritative declarations
and default member initializers; the method bodies live in implementation
units that are not part of the source tree here, so those bodies are
modelled from the specification text (each such definition says so in its
doc comment). Machine doubles are embedded as rational numbers; external
collaborators (kernel/neighbor provider, collision resolver, Euclidean
norm) are record fields, as the specification treats them as interfaces.
-/

/-- Two-dimensional double-precision vector, embedded over the rationals. -/
structure Vector2D where
  x : ℚ
  y : ℚ
deriving DecidableEq, Repr

/-- Three-dimensional double-precision vector, embedded over the rationals. -/
structure Vector3D where
  x : ℚ
  y : ℚ
  z : ℚ
deriving DecidableEq, Repr

def Vector2D.zero : Vector2D := ⟨0, 0⟩

instance : Add Vector2D := ⟨fun a b => ⟨a.x + b.x, a.y + b.y⟩⟩

instance : Sub Vector2D := ⟨fun a b => ⟨a.x - b.x, a.y - b.y⟩⟩

instance : SMul ℚ Vector2D := ⟨fun q v => ⟨q * v.x, q * v.y⟩⟩

/-- Squared Euclidean length of a 2-D vector. -/
def Vector2D.lengthSq (v : Vector2D) : ℚ := v.x * v.x + v.y * v.y

/-- Sum of a list of 2-D vectors. -/
def vsum (l : List Vector2D) : Vector2D := l.foldr (fun a b => a + b) Vector2D.zero

/-- Perpendicular (90 degree counterclockwise rotation) of a 2-D vector. -/
def Vector2D.perpendicular (v : Vector2D) : Vector2D := ⟨-v.y, v.x⟩

/-- Scalar 2-D cross product. -/
def cross2 (a b : Vector2D) : ℚ := a.x * b.y - a.y * b.x

/-- Modelled from the spec: the water-density constant kWaterDensity from the
constants header that is not part of the source tree; the builder default for
target density (value as in the upstream engine, 998 kg per cubic meter). -/
def kWaterDensity : ℚ := 998

/-- Solver state of PbfSolver2 as declared in include/jet/pbf_solver2.h:
the seven configuration fields with their default initializers from lines
134 to 140, the original-positions snapshot buffer from line 142, and the
three SPH kernel parameters the two-argument constructor receives (stored
in the SPH system data in the original; defaults follow the builder). -/
structure PbfSolver2 where
  _targetDensity : ℚ := kWaterDensity
  _targetSpacing : ℚ := 1/10
  _relativeKernelRadius : ℚ := 9/5
  _pseudoViscosityCoefficient : ℚ := 1/100
  _maxNumberOfIterations : Nat := 10
  _lambdaRelaxation : ℚ := 10
  _antiClusteringDenom : ℚ := 1/5
  _antiClusteringStrength : ℚ := 1/1000000
  _antiClusteringExp : ℚ := 4
  _vorticityConfinementStrength : ℚ := 0
  _originalPositions : List Vector2D := []
deriving DecidableEq, Repr

def PbfSolver2.pseudoViscosityCoefficient (s : PbfSolver2) : ℚ :=
  s._pseudoViscosityCoefficient

/-- Modelled from the spec: simple assignment setter; the spec states the
solver does not clamp the pseudo-viscosity coefficient. -/
def PbfSolver2.setPseudoViscosityCoefficient (s : PbfSolver2) (c : ℚ) : PbfSolver2 :=
  { s with _pseudoViscosityCoefficient := c }

def PbfSolver2.maxNumberOfIterations (s : PbfSolver2) : Nat :=
  s._maxNumberOfIterations

/-- Modelled from the spec: simple assignment setter for the iteration bound. -/
def PbfSolver2.setMaxNumberOfIterations (s : PbfSolver2) (n : Nat) : PbfSolver2 :=
  { s with _maxNumberOfIterations := n }

def PbfSolver2.lambdaRelaxation (s : PbfSolver2) : ℚ :=
  s._lambdaRelaxation

/-- Modelled from the spec: simple assignment setter for the relaxation
constant. -/
def PbfSolver2.setLambdaRelaxation (s : PbfSolver2) (eps : ℚ) : PbfSolver2 :=
  { s with _lambdaRelaxation := eps }

def PbfSolver2.antiClusteringDenominatorFactor (s : PbfSolver2) : ℚ :=
  s._antiClusteringDenom

/-- Modelled from the spec: simple assignment setter for the anti-clustering
denominator factor. -/
def PbfSolver2.setAntiClusteringDenominatorFactor (s : PbfSolver2) (factor : ℚ) : PbfSolver2 :=
  { s with _antiClusteringDenom := factor }

def PbfSolver2.antiClusteringStrength (s : PbfSolver2) : ℚ :=
  s._antiClusteringStrength

/-- Modelled from the spec: simple assignment setter for the anti-clustering
strength. -/
def PbfSolver2.setAntiClusteringStrength (s : PbfSolver2) (strength : ℚ) : PbfSolver2 :=
  { s with _antiClusteringStrength := strength }

def PbfSolver2.antiClusteringExponent (s : PbfSolver2) : ℚ :=
  s._antiClusteringExp

/-- Modelled from the spec: simple assignment setter for the anti-clustering
exponent. -/
def PbfSolver2.setAntiClusteringExponent (s : PbfSolver2) (exponent : ℚ) : PbfSolver2 :=
  { s with _antiClusteringExp := exponent }

def PbfSolver2.vorticityConfinementStrength (s : PbfSolver2) : ℚ :=
  s._vorticityConfinementStrength

/-- Modelled from the spec: simple assignment setter for the vorticity
confinement strength. -/
def PbfSolver2.setVorticityConfinementStrength (s : PbfSolver2) (strength : ℚ) : PbfSolver2 :=
  { s with _vorticityConfinementStrength := strength }

/-- Builder for PbfSolver2, as declared in include/jet/pbf_solver2.h lines
161 to 182, with the default field initializers of lines 179 to 181. -/
structure PbfSolver2Builder where
  _targetDensity : ℚ := kWaterDensity
  _targetSpacing : ℚ := 1/10
  _relativeKernelRadius : ℚ := 9/5
deriving DecidableEq, Repr

/-- Modelled from the spec: build constructs a solver from the target
density, target spacing and relative kernel radius held by the builder;
everything else keeps the default-constructed configuration. -/
def PbfSolver2Builder.build (b : PbfSolver2Builder) : PbfSolver2 :=
  { _targetDensity := b._targetDensity,
    _targetSpacing := b._targetSpacing,
    _relativeKernelRadius := b._relativeKernelRadius }

/-- External collaborators of the solver, as specified at their interface:
per-particle neighbor lists, the SPH kernel value over a distance, the SPH
kernel gradient over a displacement vector, the SPH density of a particle
given all positions, the Euclidean norm (kept external because exact square
roots leave the rationals), and the collision resolver acting on one
position/velocity pair. -/
structure Externals where
  neighbors : Nat → List Nat
  kernelValue : ℚ → ℚ
  kernelGradient : Vector2D → Vector2D
  density : List Vector2D → Nat → ℚ
  norm : Vector2D → ℚ
  resolveCollision : Vector2D → Vector2D → Vector2D × Vector2D

/-- Per-particle attribute store shared with the particle system: positions
and velocities, index-aligned. -/
structure ParticleState where
  positions : List Vector2D
  velocities : List Vector2D
deriving DecidableEq, Repr

/-- Modelled from the spec: the position predictor (predictPosition in the
header, body not in the source tree). It first snapshots current positions
into the original-positions buffer and then integrates velocity into
position, p + v * dt, enforcing no constraint. -/
def predictPosition (s : PbfSolver2) (dt : ℚ) (ps : ParticleState) :
    PbfSolver2 × ParticleState :=
  ({ s with _originalPositions := ps.positions },
   { ps with
     positions := List.zipWith (fun p v => p + dt • v) ps.positions ps.velocities })

/-- SPH kernel radius: target spacing times relative kernel radius. -/
def PbfSolver2.kernelRadius (s : PbfSolver2) : ℚ :=
  s._targetSpacing * s._relativeKernelRadius

/-- Modelled from the spec: the density constraint of particle i,
C = density / targetDensity - 1, with the density delegated to the kernel
provider. -/
def densityConstraint (ext : Externals) (s : PbfSolver2) (pos : List Vector2D)
    (i : Nat) : ℚ :=
  ext.density pos i / s._targetDensity - 1

/-- Modelled from the spec: the kernel-gradient-derived constraint gradients
of particle i, one entry for i itself and one per neighbor j. -/
def constraintGradients (ext : Externals) (s : PbfSolver2) (pos : List Vector2D)
    (i : Nat) : List Vector2D :=
  let grads := (ext.neighbors i).map
    (fun j => ext.kernelGradient (pos.getD i Vector2D.zero - pos.getD j Vector2D.zero))
  ((1 / s._targetDensity) • vsum grads) ::
    grads.map (fun g => (-(1 / s._targetDensity)) • g)

/-- Sum of squared gradient magnitudes appearing in the denominator of the
Lagrange multiplier. -/
def gradientSqSum (grads : List Vector2D) : ℚ :=
  (grads.map Vector2D.lengthSq).sum

/-- Modelled from the spec: the Lagrange multiplier,
lambda = -C / (sum of squared gradient magnitudes + eps). -/
def computeLambda (c : ℚ) (grads : List Vector2D) (eps : ℚ) : ℚ :=
  -c / (gradientSqSum grads + eps)

/-- Modelled from the spec: the Lagrange multiplier of particle i in one
constraint-solve iteration, wiring the constraint, the gradients, and the
configured relaxation constant into computeLambda. -/
def lambdaFor (ext : Externals) (s : PbfSolver2) (pos : List Vector2D)
    (i : Nat) : ℚ :=
  computeLambda (densityConstraint ext s pos i) (constraintGradients ext s pos i)
    s._lambdaRelaxation

/-- Modelled from the spec: the anti-clustering (tensile instability)
corrective scalar for the pair (i, j),
sCorr = -strength * (W(r) / W(k * h)) ^ exponent. -/
def sCorr (ext : Externals) (s : PbfSolver2) (pos : List Vector2D)
    (i j : Nat) : ℚ :=
  -(s._antiClusteringStrength) *
    (ext.kernelValue
        (ext.norm (pos.getD i Vector2D.zero - pos.getD j Vector2D.zero)) /
      ext.kernelValue (s._antiClusteringDenom * s.kernelRadius)) ^
    s._antiClusteringExp.num.toNat

/-- Modelled from the spec: the accumulated position displacement of
particle i, (1 / targetDensity) * sum over neighbors j of
(lambda i + lambda j + sCorr) * gradW(p i - p j). -/
def positionDisplacement (ext : Externals) (s : PbfSolver2) (pos : List Vector2D)
    (lam : Nat → ℚ) (i : Nat) : Vector2D :=
  (1 / s._targetDensity) • vsum ((ext.neighbors i).map (fun j =>
    (lam i + lam j + sCorr ext s pos i j) •
      ext.kernelGradient (pos.getD i Vector2D.zero - pos.getD j Vector2D.zero)))

/-- Modelled from the spec: one iteration of the density-constraint loop:
compute every multiplier from the current positions, apply every
displacement, then pass every particle through the collision resolver. -/
def constraintIteration (ext : Externals) (s : PbfSolver2)
    (ps : ParticleState) : ParticleState :=
  let pos := ps.positions
  let lam := fun i => lambdaFor ext s pos i
  let moved := (List.range pos.length).map (fun i =>
    pos.getD i Vector2D.zero + positionDisplacement ext s pos lam i)
  let resolved := (List.range moved.length).map (fun i =>
    ext.resolveCollision (moved.getD i Vector2D.zero)
      (ps.velocities.getD i Vector2D.zero))
  { positions := resolved.map Prod.fst, velocities := resolved.map Prod.snd }

/-- Modelled from the spec: the fixed-count constraint-solve loop, a plain
counted for-loop with no convergence-based early exit. -/
def pbdIterationLoop (ext : Externals) (s : PbfSolver2) :
    Nat → ParticleState → ParticleState
  | 0, ps => ps
  | Nat.succ k, ps => pbdIterationLoop ext s k (constraintIteration ext s ps)

/-- Modelled from the spec: the position/velocity reconciler (updatePosition
in the header): velocity becomes (position - originalPosition) / dt. -/
def updatePosition (s : PbfSolver2) (dt : ℚ) (ps : ParticleState) : ParticleState :=
  { ps with
    velocities := List.zipWith (fun p o => (1 / dt) • (p - o))
      ps.positions s._originalPositions }

/-- Modelled from the spec: XSPH velocity smoothing with an explicit
coefficient, v i + c * sum over neighbors j of W(r i j) * (v j - v i). -/
def xsphSmooth (ext : Externals) (c : ℚ) (ps : ParticleState) : ParticleState :=
  { ps with
    velocities := (List.range ps.velocities.length).map (fun i =>
      let vi := ps.velocities.getD i Vector2D.zero
      let posI := ps.positions.getD i Vector2D.zero
      vi + c • vsum ((ext.neighbors i).map (fun j =>
        ext.kernelValue (ext.norm (posI - ps.positions.getD j Vector2D.zero)) •
          (ps.velocities.getD j Vector2D.zero - vi)))) }

/-- Modelled from the spec: the pseudo-viscosity applicator reads the stored
coefficient and applies XSPH smoothing; the timestep parameter mirrors the
header signature and is not used by the smoothing formula. -/
def computePseudoViscosity (ext : Externals) (s : PbfSolver2) (_dt : ℚ)
    (ps : ParticleState) : ParticleState :=
  xsphSmooth ext s._pseudoViscosityCoefficient ps

/-- Modelled from the spec: scalar 2-D vorticity of particle i estimated
from neighbor velocity differences weighted by kernel gradients. -/
def vorticityAt (ext : Externals) (ps : ParticleState) (i : Nat) : ℚ :=
  ((ext.neighbors i).map (fun j =>
    cross2 (ps.velocities.getD j Vector2D.zero - ps.velocities.getD i Vector2D.zero)
      (ext.kernelGradient
        (ps.positions.getD i Vector2D.zero - ps.positions.getD j Vector2D.zero)))).sum

/-- Modelled from the spec: gradient of vorticity magnitude across neighbors
of particle i. -/
def vorticityGradient (ext : Externals) (ps : ParticleState) (i : Nat) : Vector2D :=
  vsum ((ext.neighbors i).map (fun j =>
    |vorticityAt ext ps j| •
      ext.kernelGradient
        (ps.positions.getD i Vector2D.zero - ps.positions.getD j Vector2D.zero)))

/-- Modelled from the spec: the vorticity confinement applicator. It is
skipped entirely when the configured strength is exactly zero; otherwise it
perturbs each velocity by strength * vorticity * perpendicular(direction)
* dt, with the direction the normalized vorticity gradient guarded against
a zero magnitude. -/
def computeVorticityConfinement (ext : Externals) (s : PbfSolver2) (dt : ℚ)
    (ps : ParticleState) : ParticleState :=
  if s._vorticityConfinementStrength = 0 then ps
  else
    { ps with
      velocities := (List.range ps.velocities.length).map (fun i =>
        let eta := vorticityGradient ext ps i
        let m := ext.norm eta
        let dir := if m = 0 then Vector2D.zero else (1 / m) • eta
        ps.velocities.getD i Vector2D.zero +
          (s._vorticityConfinementStrength * vorticityAt ext ps i * dt) •
            dir.perpendicular) }

/-- Modelled from the spec: one full solver step (onAdvanceTimeStep):
predictor, then exactly maxNumberOfIterations constraint iterations, then
the reconciler, then pseudo-viscosity, then vorticity confinement. -/
def advanceOneStep (ext : Externals) (s : PbfSolver2) (dt : ℚ)
    (ps : ParticleState) : PbfSolver2 × ParticleState :=
  let s1 := (predictPosition s dt ps).1
  let ps1 := (predictPosition s dt ps).2
  let ps2 := pbdIterationLoop ext s1 s1._maxNumberOfIterations ps1
  let ps3 := updatePosition s1 dt ps2
  let ps4 := computePseudoViscosity ext s1 dt ps3
  let ps5 := computeVorticityConfinement ext s1 dt ps4
  (s1, ps5)

/-- Generic collider of include/jet/collider3.h. The surface geometry and
the collision response mathematics live behind the abstract interface, so
they are carried as function-valued fields: velocityAt is the pure virtual
query of line 28; nearestNonPenetratingPoint and collisionResponse are
modelled from the spec (resolveCollision mutates position to the nearest
non-penetrating point and velocity per the restitution/friction response).
The stored friction coefficient mirrors the private member of line 84 with
its default initializer, keeping the spelling of the source. -/
structure Collider3 where
  velocityAt : Vector3D → Vector3D
  nearestNonPenetratingPoint : ℚ → Vector3D → Vector3D
  collisionResponse : ℚ → ℚ → Vector3D → Vector3D → Vector3D
  _frictionCoeffient : ℚ := 0

/-- Formal parameter list of Collider3::resolveCollision exactly as
declared at include/jet/collider3.h lines 38 to 42. -/
def Collider3.resolveCollisionParams : List String :=
  ["radius", "restitutionCoefficient", "position", "velocity"]

/-- Modelled from the spec: resolveCollision (body not in the source tree)
returns the mutated position/velocity pair: the nearest non-penetrating
point for the position, and the restitution/friction response for the
velocity, with the friction coefficient read from the collider state. -/
def Collider3.resolveCollision (c : Collider3) (radius : ℚ)
    (restitutionCoefficient : ℚ) (position velocity : Vector3D) :
    Vector3D × Vector3D :=
  (c.nearestNonPenetratingPoint radius position,
   c.collisionResponse c._frictionCoeffient restitutionCoefficient position velocity)

def Collider3.frictionCoefficient (c : Collider3) : ℚ :=
  c._frictionCoeffient

/-- Modelled from the spec and the header documentation of lines 47 to 53:
the setter assigns the friction coefficient, clamping any negative input
to zero. -/
def Collider3.setFrictionCoefficient (c : Collider3) (newFrictionCoeffient : ℚ) :
    Collider3 :=
  { c with _frictionCoeffient := max newFrictionCoeffient 0 }

theorem lengthSq_nonneg (v : Vector2D) : 0 ≤ v.lengthSq :=
  add_nonneg (mul_self_nonneg _) (mul_self_nonneg _)

theorem gradientSqSum_nonneg (l : List Vector2D) : 0 ≤ gradientSqSum l := by
  unfold gradientSqSum
  induction l with
  | nil => simp
  | cons v t ih =>
    simp only [List.map_cons, List.sum_cons]
    exact add_nonneg (lengthSq_nonneg v) ih

theorem vadd_def (a b : Vector2D) : a + b = ⟨a.x + b.x, a.y + b.y⟩ := rfl

theorem vsub_def (a b : Vector2D) : a - b = ⟨a.x - b.x, a.y - b.y⟩ := rfl

theorem vsmul_def (q : ℚ) (v : Vector2D) : q • v = ⟨q * v.x, q * v.y⟩ := rfl

theorem smul_zero_vec (q : ℚ) : q • Vector2D.zero = Vector2D.zero := by
  show Vector2D.mk (q * 0) (q * 0) = Vector2D.zero
  rw [mul_zero]
  rfl

/-- Trivial instantiation of the external collaborators, used to evaluate
the theorems on concrete inputs: no neighbors, zero kernel, zero density,
identity collision resolver. -/
def ext0 : Externals :=
  { neighbors := fun _ => [],
    kernelValue := fun _ => 0,
    kernelGradient := fun _ => Vector2D.zero,
    density := fun _ _ => 0,
    norm := fun _ => 0,
    resolveCollision := fun p v => (p, v) }

/-- Concrete one-particle state used by the witnesses. -/
def psW : ParticleState :=
  { positions := [⟨1, 2⟩], velocities := [⟨3, 4⟩] }

/-- C1: in every constraint-solve iteration the Lagrange multiplier equals
minus the constraint over the squared-gradient sum plus the relaxation
constant; with the relaxation constant strictly positive the denominator is
bounded below by it (hence positive, so the division is well defined); a
zero constraint yields a zero multiplier and an empty neighbor list yields
a zero displacement, both through the same formula with no special-cased
branch. -/
theorem pbf_lambda_denominator_and_zero_neighbors
    (ext : Externals) (s : PbfSolver2) (pos : List Vector2D) (i : Nat)
    (lam : Nat → ℚ) (heps : 0 < s._lambdaRelaxation) :
    lambdaFor ext s pos i =
      -(densityConstraint ext s pos i) /
        (gradientSqSum (constraintGradients ext s pos i) + s._lambdaRelaxation) ∧
    s._lambdaRelaxation ≤
      gradientSqSum (constraintGradients ext s pos i) + s._lambdaRelaxation ∧
    0 < gradientSqSum (constraintGradients ext s pos i) + s._lambdaRelaxation ∧
    (densityConstraint ext s pos i = 0 → lambdaFor ext s pos i = 0) ∧
    (ext.neighbors i = [] → positionDisplacement ext s pos lam i = Vector2D.zero) := by
  refine ⟨rfl, ?_, ?_, ?_, ?_⟩
  · exact le_add_of_nonneg_left (gradientSqSum_nonneg _)
  · exact add_pos_of_nonneg_of_pos (gradientSqSum_nonneg _) heps
  · intro h
    unfold lambdaFor computeLambda
    rw [h, neg_zero, zero_div]
  · intro h
    unfold positionDisplacement
    rw [h]
    exact smul_zero_vec _

/-- Witness for C1: the default solver (relaxation constant 10) and an
isolated particle with an empty neighbor list. -/
theorem pbf_lambda_denominator_and_zero_neighbors_witness :
    0 < ({} : PbfSolver2)._lambdaRelaxation ∧
    ext0.neighbors 0 = [] ∧
    0 < gradientSqSum (constraintGradients ext0 {} [Vector2D.zero] 0) +
      ({} : PbfSolver2)._lambdaRelaxation ∧
    positionDisplacement ext0 {} [Vector2D.zero] (fun _ => 0) 0 = Vector2D.zero :=
  ⟨by decide, rfl,
   (pbf_lambda_denominator_and_zero_neighbors ext0 {} [Vector2D.zero] 0
      (fun _ => 0) (by decide)).2.2.1,
   (pbf_lambda_denominator_and_zero_neighbors ext0 {} [Vector2D.zero] 0
      (fun _ => 0) (by decide)).2.2.2.2 rfl⟩

theorem pbdIterationLoop_eq_iterate (ext : Externals) (s : PbfSolver2) :
    ∀ (n : Nat) (ps : ParticleState),
      pbdIterationLoop ext s n ps = (constraintIteration ext s)^[n] ps := by
  intro n
  induction n with
  | zero => intro ps; rfl
  | succ k ih =>
    intro ps
    rw [Function.iterate_succ_apply]
    exact ih (constraintIteration ext s ps)

/-- C2: one call to advanceOneStep runs the density-constraint loop exactly
maxNumberOfIterations times (the counted loop coincides with the n-fold
iterate of one constraint iteration, with no early exit), and with an
iteration count of zero the loop returns the predicted state unchanged
while the position prediction still occurs. -/
theorem pbf_advance_runs_exactly_max_iterations
    (ext : Externals) (s : PbfSolver2) (dt : ℚ) (ps : ParticleState) :
    (∀ (n : Nat) (q : ParticleState),
      pbdIterationLoop ext s n q = (constraintIteration ext s)^[n] q) ∧
    (advanceOneStep ext s dt ps).2 =
      computeVorticityConfinement ext (predictPosition s dt ps).1 dt
        (computePseudoViscosity ext (predictPosition s dt ps).1 dt
          (updatePosition (predictPosition s dt ps).1 dt
            ((constraintIteration ext
                (predictPosition s dt ps).1)^[s._maxNumberOfIterations]
              (predictPosition s dt ps).2))) ∧
    (s._maxNumberOfIterations = 0 →
      pbdIterationLoop ext (predictPosition s dt ps).1 s._maxNumberOfIterations
          (predictPosition s dt ps).2 = (predictPosition s dt ps).2 ∧
      (predictPosition s dt ps).2.positions =
        List.zipWith (fun p v => p + dt • v) ps.positions ps.velocities) := by
  refine ⟨pbdIterationLoop_eq_iterate ext s, ?_, ?_⟩
  · show computeVorticityConfinement ext (predictPosition s dt ps).1 dt
        (computePseudoViscosity ext (predictPosition s dt ps).1 dt
          (updatePosition (predictPosition s dt ps).1 dt
            (pbdIterationLoop ext (predictPosition s dt ps).1
              (predictPosition s dt ps).1._maxNumberOfIterations
              (predictPosition s dt ps).2))) = _
    rw [pbdIterationLoop_eq_iterate]
    rfl
  · intro h
    rw [h]
    exact ⟨rfl, rfl⟩

/-- Witness for C2: a solver configured with zero iterations; the predicted
state passes through the loop unchanged while prediction itself moved the
particle from (1, 2) to (4, 6). -/
theorem pbf_advance_runs_exactly_max_iterations_witness :
    ({ _maxNumberOfIterations := 0 } : PbfSolver2)._maxNumberOfIterations = 0 ∧
    pbdIterationLoop ext0
        (predictPosition ({ _maxNumberOfIterations := 0 } : PbfSolver2) 1 psW).1
        ({ _maxNumberOfIterations := 0 } : PbfSolver2)._maxNumberOfIterations
        (predictPosition ({ _maxNumberOfIterations := 0 } : PbfSolver2) 1 psW).2 =
      (predictPosition ({ _maxNumberOfIterations := 0 } : PbfSolver2) 1 psW).2 ∧
    (predictPosition ({ _maxNumberOfIterations := 0 } : PbfSolver2) 1 psW).2.positions =
      [⟨4, 6⟩] :=
  ⟨rfl,
   ((pbf_advance_runs_exactly_max_iterations ext0
      ({ _maxNumberOfIterations := 0 } : PbfSolver2) 1 psW).2.2 rfl).1,
   by norm_num [predictPosition, psW, vadd_def, vsmul_def]⟩

/-- Concrete one-particle state sharing positions with psW but carrying a
different velocity, used to witness that reconciled velocities ignore
pre-predictor velocities. -/
def psWAlt : ParticleState :=
  { positions := [⟨1, 2⟩], velocities := [⟨-7, 9⟩] }

/-- C3: after the constraint-solve loop the reconciler sets each velocity to
(position - originalPosition) / dt, where the original positions are the
snapshot taken at the start of the step (they survive the loop untouched);
and the reconciled velocities depend on the incoming state only through its
positions, so velocity information not reflected in the final position is
discarded. -/
theorem pbf_velocity_reconciliation
    (ext : Externals) (s : PbfSolver2) (dt : ℚ) (ps : ParticleState) :
    (updatePosition (predictPosition s dt ps).1 dt
        (pbdIterationLoop ext (predictPosition s dt ps).1
          (predictPosition s dt ps).1._maxNumberOfIterations
          (predictPosition s dt ps).2)).velocities =
      List.zipWith (fun p o => (1 / dt) • (p - o))
        (pbdIterationLoop ext (predictPosition s dt ps).1
          (predictPosition s dt ps).1._maxNumberOfIterations
          (predictPosition s dt ps).2).positions
        ps.positions ∧
    (∀ t u : ParticleState, t.positions = u.positions →
      (updatePosition s dt t).velocities = (updatePosition s dt u).velocities) := by
  refine ⟨rfl, ?_⟩
  intro t u h
  unfold updatePosition
  rw [h]

/-- Witness for C3: two states agreeing on positions but not velocities
reconcile to the same velocities. -/
theorem pbf_velocity_reconciliation_witness :
    psW.positions = psWAlt.positions ∧
    (updatePosition ({} : PbfSolver2) 1 psW).velocities =
      (updatePosition ({} : PbfSolver2) 1 psWAlt).velocities :=
  ⟨rfl, (pbf_velocity_reconciliation ext0 ({} : PbfSolver2) 1 psW).2 psW psWAlt rfl⟩

/-- C4: the position predictor snapshots every current position into the
original-positions buffer, then sets every position to
position + velocity * dt, and touches no velocity (no constraint is
enforced at this stage). -/
theorem pbf_position_predictor (s : PbfSolver2) (dt : ℚ) (ps : ParticleState) :
    (predictPosition s dt ps).1._originalPositions = ps.positions ∧
    (predictPosition s dt ps).2.positions =
      List.zipWith (fun p v => p + dt • v) ps.positions ps.velocities ∧
    (predictPosition s dt ps).2.velocities = ps.velocities :=
  ⟨rfl, rfl, rfl⟩

/-- C5: with the vorticity confinement strength exactly zero the vorticity
stage is skipped entirely: the whole particle state, velocities included,
is returned unchanged. -/
theorem pbf_vorticity_zero_strength_noop
    (ext : Externals) (s : PbfSolver2) (dt : ℚ) (ps : ParticleState)
    (h : s._vorticityConfinementStrength = 0) :
    computeVorticityConfinement ext s dt ps = ps := by
  unfold computeVorticityConfinement
  rw [if_pos h]

/-- Witness for C5: the default solver has strength zero and the stage
fixes a concrete state. -/
theorem pbf_vorticity_zero_strength_noop_witness :
    ({} : PbfSolver2)._vorticityConfinementStrength = 0 ∧
    computeVorticityConfinement ext0 ({} : PbfSolver2) 1 psW = psW :=
  ⟨rfl, pbf_vorticity_zero_strength_noop ext0 ({} : PbfSolver2) 1 psW rfl⟩

/-- C6 counterexample: the parameter list of Collider3::resolveCollision as
declared in the header does not contain a friction coefficient, refuting
the claimed five-parameter signature. -/
theorem resolveCollision_signature_counterexample :
    Collider3.resolveCollisionParams ≠
      ["radius", "restitutionCoefficient", "frictionCoefficient",
       "position", "velocity"] := by
  decide

/-- C6 amended: resolveCollision takes a radius, a restitution coefficient,
and the in/out position and velocity; the friction coefficient is not a
parameter but is read from the collider state; every call produces a
mutated pair (position projected to the nearest non-penetrating point,
velocity given by the restitution/friction response) and always succeeds. -/
theorem resolveCollision_contract :
    Collider3.resolveCollisionParams =
      ["radius", "restitutionCoefficient", "position", "velocity"] ∧
    ∀ (c : Collider3) (radius restitution : ℚ) (p v : Vector3D),
      c.resolveCollision radius restitution p v =
        (c.nearestNonPenetratingPoint radius p,
         c.collisionResponse c._frictionCoeffient restitution p v) :=
  ⟨rfl, fun _ _ _ _ _ => rfl⟩

/-- C7: after setFrictionCoefficient x the stored friction coefficient is x
for nonnegative x and zero for negative x (silent clamping, no error), and
frictionCoefficient returns that stored value. -/
theorem setFrictionCoefficient_clamps_negative (c : Collider3) (x : ℚ) :
    (c.setFrictionCoefficient x).frictionCoefficient =
      if x < 0 then 0 else x := by
  unfold Collider3.setFrictionCoefficient Collider3.frictionCoefficient
  by_cases h : x < 0
  · rw [if_pos h]
    exact max_eq_right (le_of_lt h)
  · rw [if_neg h]
    exact max_eq_left (not_lt.mp h)

/-- C8: the pseudo-viscosity setter performs no clamping: the getter
returns exactly the value that was set, for any rational including values
outside the unit interval, and the viscosity pass smooths with exactly
that coefficient. -/
theorem setPseudoViscosityCoefficient_no_clamp (s : PbfSolver2) (x : ℚ) :
    (s.setPseudoViscosityCoefficient x).pseudoViscosityCoefficient = x ∧
    ∀ (ext : Externals) (dt : ℚ) (ps : ParticleState),
      computePseudoViscosity ext (s.setPseudoViscosityCoefficient x) dt ps =
        xsphSmooth ext x ps :=
  ⟨rfl, fun _ _ _ => rfl⟩

/-- C9: a builder with no fields set builds a solver with target density
kWaterDensity, target spacing 0.1 and relative kernel radius 1.8, and a
default-constructed solver carries the documented configuration defaults
of the header. -/
theorem pbf_builder_and_solver_defaults :
    (PbfSolver2Builder.build {})._targetDensity = kWaterDensity ∧
    (PbfSolver2Builder.build {})._targetSpacing = 1/10 ∧
    (PbfSolver2Builder.build {})._relativeKernelRadius = 9/5 ∧
    ({} : PbfSolver2).pseudoViscosityCoefficient = 1/100 ∧
    ({} : PbfSolver2).maxNumberOfIterations = 10 ∧
    ({} : PbfSolver2).lambdaRelaxation = 10 ∧
    ({} : PbfSolver2).antiClusteringDenominatorFactor = 1/5 ∧
    ({} : PbfSolver2).antiClusteringStrength = 1/1000000 ∧
    ({} : PbfSolver2).antiClusteringExponent = 4 ∧
    ({} : PbfSolver2).vorticityConfinementStrength = 0 :=
  ⟨rfl, rfl, rfl, rfl, rfl, rfl, rfl, rfl, rfl, rfl⟩

/-- C10: every configuration setter of the solver mutates only its own
field: for each of the seven setters, every other configuration field
(the kernel parameters included) and the original-positions buffer are
unchanged. -/
theorem pbf_setters_touch_only_own_field (s : PbfSolver2) (x : ℚ) (n : Nat) :
    (s.setPseudoViscosityCoefficient x)._targetDensity = s._targetDensity ∧
    (s.setPseudoViscosityCoefficient x)._targetSpacing = s._targetSpacing ∧
    (s.setPseudoViscosityCoefficient x)._relativeKernelRadius = s._relativeKernelRadius ∧
    (s.setPseudoViscosityCoefficient x)._maxNumberOfIterations = s._maxNumberOfIterations ∧
    (s.setPseudoViscosityCoefficient x)._lambdaRelaxation = s._lambdaRelaxation ∧
    (s.setPseudoViscosityCoefficient x)._antiClusteringDenom = s._antiClusteringDenom ∧
    (s.setPseudoViscosityCoefficient x)._antiClusteringStrength = s._antiClusteringStrength ∧
    (s.setPseudoViscosityCoefficient x)._antiClusteringExp = s._antiClusteringExp ∧
    (s.setPseudoViscosityCoefficient x)._vorticityConfinementStrength = s._vorticityConfinementStrength ∧
    (s.setPseudoViscosityCoefficient x)._originalPositions = s._originalPositions ∧
    (s.setMaxNumberOfIterations n)._targetDensity = s._targetDensity ∧
    (s.setMaxNumberOfIterations n)._targetSpacing = s._targetSpacing ∧
    (s.setMaxNumberOfIterations n)._relativeKernelRadius = s._relativeKernelRadius ∧
    (s.setMaxNumberOfIterations n)._pseudoViscosityCoefficient = s._pseudoViscosityCoefficient ∧
    (s.setMaxNumberOfIterations n)._lambdaRelaxation = s._lambdaRelaxation ∧
    (s.setMaxNumberOfIterations n)._antiClusteringDenom = s._antiClusteringDenom ∧
    (s.setMaxNumberOfIterations n)._antiClusteringStrength = s._antiClusteringStrength ∧
    (s.setMaxNumberOfIterations n)._antiClusteringExp = s._antiClusteringExp ∧
    (s.setMaxNumberOfIterations n)._vorticityConfinementStrength = s._vorticityConfinementStrength ∧
    (s.setMaxNumberOfIterations n)._originalPositions = s._originalPositions ∧
    (s.setLambdaRelaxation x)._targetDensity = s._targetDensity ∧
    (s.setLambdaRelaxation x)._targetSpacing = s._targetSpacing ∧
    (s.setLambdaRelaxation x)._relativeKernelRadius = s._relativeKernelRadius ∧
    (s.setLambdaRelaxation x)._pseudoViscosityCoefficient = s._pseudoViscosityCoefficient ∧
    (s.setLambdaRelaxation x)._maxNumberOfIterations = s._maxNumberOfIterations ∧
    (s.setLambdaRelaxation x)._antiClusteringDenom = s._antiClusteringDenom ∧
    (s.setLambdaRelaxation x)._antiClusteringStrength = s._antiClusteringStrength ∧
    (s.setLambdaRelaxation x)._antiClusteringExp = s._antiClusteringExp ∧
    (s.setLambdaRelaxation x)._vorticityConfinementStrength = s._vorticityConfinementStrength ∧
    (s.setLambdaRelaxation x)._originalPositions = s._originalPositions ∧
    (s.setAntiClusteringDenominatorFactor x)._targetDensity = s._targetDensity ∧
    (s.setAntiClusteringDenominatorFactor x)._targetSpacing = s._targetSpacing ∧
    (s.setAntiClusteringDenominatorFactor x)._relativeKernelRadius = s._relativeKernelRadius ∧
    (s.setAntiClusteringDenominatorFactor x)._pseudoViscosityCoefficient = s._pseudoViscosityCoefficient ∧
    (s.setAntiClusteringDenominatorFactor x)._maxNumberOfIterations = s._maxNumberOfIterations ∧
    (s.setAntiClusteringDenominatorFactor x)._lambdaRelaxation = s._lambdaRelaxation ∧
    (s.setAntiClusteringDenominatorFactor x)._antiClusteringStrength = s._antiClusteringStrength ∧
    (s.setAntiClusteringDenominatorFactor x)._antiClusteringExp = s._antiClusteringExp ∧
    (s.setAntiClusteringDenominatorFactor x)._vorticityConfinementStrength = s._vorticityConfinementStrength ∧
    (s.setAntiClusteringDenominatorFactor x)._originalPositions = s._originalPositions ∧
    (s.setAntiClusteringStrength x)._targetDensity = s._targetDensity ∧
    (s.setAntiClusteringStrength x)._targetSpacing = s._targetSpacing ∧
    (s.setAntiClusteringStrength x)._relativeKernelRadius = s._relativeKernelRadius ∧
    (s.setAntiClusteringStrength x)._pseudoViscosityCoefficient = s._pseudoViscosityCoefficient ∧
    (s.setAntiClusteringStrength x)._maxNumberOfIterations = s._maxNumberOfIterations ∧
    (s.setAntiClusteringStrength x)._lambdaRelaxation = s._lambdaRelaxation ∧
    (s.setAntiClusteringStrength x)._antiClusteringDenom = s._antiClusteringDenom ∧
    (s.setAntiClusteringStrength x)._antiClusteringExp = s._antiClusteringExp ∧
    (s.setAntiClusteringStrength x)._vorticityConfinementStrength = s._vorticityConfinementStrength ∧
    (s.setAntiClusteringStrength x)._originalPositions = s._originalPositions ∧
    (s.setAntiClusteringExponent x)._targetDensity = s._targetDensity ∧
    (s.setAntiClusteringExponent x)._targetSpacing = s._targetSpacing ∧
    (s.setAntiClusteringExponent x)._relativeKernelRadius = s._relativeKernelRadius ∧
    (s.setAntiClusteringExponent x)._pseudoViscosityCoefficient = s._pseudoViscosityCoefficient ∧
    (s.setAntiClusteringExponent x)._maxNumberOfIterations = s._maxNumberOfIterations ∧
    (s.setAntiClusteringExponent x)._lambdaRelaxation = s._lambdaRelaxation ∧
    (s.setAntiClusteringExponent x)._antiClusteringDenom = s._antiClusteringDenom ∧
    (s.setAntiClusteringExponent x)._antiClusteringStrength = s._antiClusteringStrength ∧
    (s.setAntiClusteringExponent x)._vorticityConfinementStrength = s._vorticityConfinementStrength ∧
    (s.setAntiClusteringExponent x)._originalPositions = s._originalPositions ∧
    (s.setVorticityConfinementStrength x)._targetDensity = s._targetDensity ∧
    (s.setVorticityConfinementStrength x)._targetSpacing = s._targetSpacing ∧
    (s.setVorticityConfinementStrength x)._relativeKernelRadius = s._relativeKernelRadius ∧
    (s.setVorticityConfinementStrength x)._pseudoViscosityCoefficient = s._pseudoViscosityCoefficient ∧
    (s.setVorticityConfinementStrength x)._maxNumberOfIterations = s._maxNumberOfIterations ∧
    (s.setVorticityConfinementStrength x)._lambdaRelaxation = s._lambdaRelaxation ∧
    (s.setVorticityConfinementStrength x)._antiClusteringDenom = s._antiClusteringDenom ∧
    (s.setVorticityConfinementStrength x)._antiClusteringStrength = s._antiClusteringStrength ∧
    (s.setVorticityConfinementStrength x)._antiClusteringExp = s._antiClusteringExp ∧
    (s.setVorticityConfinementStrength x)._originalPositions = s._originalPositions := by
  repeat' apply And.intro
  all_goals rfl
